import Mathlib

/-!
# Verification of the staged model-deployment core

Shallow embedding of the deployment / retraining core of the repository
(`src/deploy_model.py`, `src/retrain_model.py`).  The MLflow model registry
is modelled as a list of model-version records; the tracking backend
(`client.get_run`) is an oracle mapping a run id to its recorded data, with
`none` standing for a raised backend exception.  Metric maps are association
lists from metric name to a rational number (floats are embedded as `ℚ`;
every comparison the code performs is order-only, so the embedding is
order-faithful on the decimal literals involved).
-/

namespace GnuMlops

/-- A model version registered in the MLflow Model Registry.
`current_stage` holds the stage string as stored by MLflow
(`"None"`, `"Staging"`, `"Production"`, `"Archived"`). -/
structure ModelVersion where
  version : Nat
  run_id : String
  current_stage : String
deriving Repr, DecidableEq

/-- The registry state for the one registered model: its list of versions. -/
abbrev Registry := List ModelVersion

/-- A metric map (`run.data.metrics`): metric name to value. -/
abbrev Metrics := List (String × ℚ)

/-- Python `metrics.get(key, default)`. -/
def metricsGet (m : Metrics) (key : String) (default : ℚ) : ℚ :=
  match m.lookup key with
  | some v => v
  | none => default

/-- Data of an MLflow run as consumed by the code: `run.data.metrics`
and `run.info.start_time` (a timestamp; the code divides the stored
milliseconds by 1000, so we model it directly in seconds as `ℤ`). -/
structure RunData where
  metrics : Metrics
  start_time : Int
deriving Repr, DecidableEq

/-- The tracking backend view of `client.get_run`: `none` models a raised
backend exception (network failure, unknown run, ...). -/
structure Backend where
  runOf : String → Option RunData

/-- The MLflow stage vocabulary: a stage string is canonical iff MLflow
accepts it.  `get_latest_versions` raises on any other stage string. -/
def canonicalStage (st : String) : Bool :=
  st = "None" || st = "Staging" || st = "Production" || st = "Archived"

/-- The singleton stages: `archive_existing_versions=True` archives prior
occupants only when transitioning into `Staging` or `Production`. -/
def singletonStage (st : String) : Bool :=
  st = "Staging" || st = "Production"

/-- deploy_model.py line 270: map the display stage `"GNU_Production"` to the
MLflow stage `"Production"`; all other stage names pass through. -/
def mlflowStage (stage : String) : String :=
  if stage = "GNU_Production" then "Production" else stage

/-- Embedding of `MlflowClient.transition_model_version_stage` with
`archive_existing_versions=True`: the named version takes `mstage`, and
every other version currently in `mstage` (when `mstage` is a singleton
stage) is moved to `"Archived"`. -/
def transitionVersionStage (reg : Registry) (v : Nat) (mstage : String) :
    Registry :=
  reg.map fun mv =>
    if mv.version = v then { mv with current_stage := mstage }
    else if singletonStage mstage ∧ mv.current_stage = mstage then
      { mv with current_stage := "Archived" }
    else mv

/-- Embedding of `ModelDeployment.transition_model_stage` (deploy_model.py 238-288):
maps `"GNU_Production"` to `"Production"` and performs the registry
transition with archiving.  MLflow raises when the version does not exist
and the method re-raises, modelled as `none`. -/
def transition_model_stage (reg : Registry) (version : Nat) (stage : String) :
    Option Registry :=
  if reg.any (fun mv => mv.version = version) then
    some (transitionVersionStage reg version (mlflowStage stage))
  else none

/-- Highest-version member of a list of versions (MLflow's
"latest = highest numeric version id" convention), `none` on the empty
list. -/
def latestOf (l : List ModelVersion) : Option ModelVersion :=
  l.foldl
    (fun acc mv =>
      match acc with
      | none => some mv
      | some m => if m.version < mv.version then some mv else some m)
    none

/-- Embedding of `client.get_latest_versions(name, stages=[stage])`: `none` models the
MlflowException raised on a non-canonical stage string; otherwise the
latest (highest-id) version currently in that stage, as a list of at most
one element. -/
def get_latest_versions (reg : Registry) (stage : String) :
    Option (List ModelVersion) :=
  if canonicalStage stage then
    match latestOf (reg.filter (fun mv => mv.current_stage = stage)) with
    | some mv => some [mv]
    | none => some []
  else none

/-- Embedding of `ModelDeployment.get_latest_model_version` (deploy_model.py 130-168):
latest version in the `"None"` stage; `none` models the raised
`ValueError` when no such version exists. -/
def get_latest_model_version (reg : Registry) : Option Nat :=
  match get_latest_versions reg "None" with
  | some (mv :: _) => some mv.version
  | _ => none

/-- Embedding of `ModelDeployment.get_model_metrics` (deploy_model.py 170-202): fetches
the run's metrics; any backend exception is caught and an empty dict is
returned ("Log error but don't crash - return empty dict"). -/
def get_model_metrics (b : Backend) (run_id : String) : Metrics :=
  match b.runOf run_id with
  | some run => run.metrics
  | none => []

/-- Embedding of `ModelDeployment.validate_model_performance` (deploy_model.py 204-236):
`accuracy = metrics.get('accuracy', 0)`; pass iff `accuracy >= threshold`. -/
def validate_model_performance (metrics : Metrics) (threshold : ℚ) : Bool :=
  if metricsGet metrics "accuracy" 0 ≥ threshold then true else false

/-- Outcome of a deployment method: the Python functions return a version
number on success, `False` on a handled failure, and let exceptions
propagate otherwise. -/
inductive DeployOutcome where
  | deployed (version : Nat)
  | failed
  | raised (msg : String)
deriving Repr, DecidableEq

/-- Embedding of `ModelDeployment.deploy_to_staging` (deploy_model.py 331-411): latest
`"None"`-stage version, fetch its metrics, gate at threshold 0.35,
transition to `"Staging"` on pass.  The description update (step 5) is
metadata-only and not represented in the registry model. -/
def deploy_to_staging (b : Backend) (reg : Registry) :
    DeployOutcome × Registry :=
  match get_latest_model_version reg with
  | none => (DeployOutcome.failed, reg)
  | some version =>
    match reg.find? (fun mv => mv.version = version) with
    | none => (DeployOutcome.raised "model version not found", reg)
    | some mv =>
      let metrics := get_model_metrics b mv.run_id
      if validate_model_performance metrics (35 / 100) then
        match transition_model_stage reg version "Staging" with
        | some reg2 => (DeployOutcome.deployed version, reg2)
        | none => (DeployOutcome.raised "transition failed", reg)
      else (DeployOutcome.failed, reg)

/-- Candidate resolution of `deploy_to_production` (deploy_model.py
471-513): explicit version if given; else the current `Staging` occupant;
else the latest `"None"`-stage version, flagged as having skipped Staging
(the logged warning); else no candidate.  A backend failure while checking
Staging is caught and treated as "no Staging model". -/
def resolveProdCandidate (reg : Registry) (vers : Option Nat) :
    Option (Nat × Bool) :=
  match vers with
  | some v => some (v, false)
  | none =>
    match get_latest_versions reg "Staging" with
    | some (mv :: _) => some (mv.version, false)
    | _ =>
      match get_latest_versions reg "None" with
      | some (mv :: _) => some (mv.version, true)
      | _ => none

/-- Result of `deploy_to_production`: outcome plus whether the
"Skipping Staging" warning path was taken. -/
structure ProdDeployResult where
  outcome : DeployOutcome
  stagingSkipped : Bool
deriving Repr, DecidableEq

/-- Embedding of `ModelDeployment.deploy_to_production` (deploy_model.py 413-545):
resolve the candidate, fetch metrics, gate at the hardcoded production
threshold 0.4, transition to `"GNU_Production"` on pass. -/
def deploy_to_production (b : Backend) (reg : Registry) (vers : Option Nat) :
    ProdDeployResult × Registry :=
  match resolveProdCandidate reg vers with
  | none => ({ outcome := .failed, stagingSkipped := false }, reg)
  | some (version, skipped) =>
    match reg.find? (fun mv => mv.version = version) with
    | none =>
      ({ outcome := .raised "model version not found",
         stagingSkipped := skipped }, reg)
    | some mv =>
      let metrics := get_model_metrics b mv.run_id
      if validate_model_performance metrics (40 / 100) then
        match transition_model_stage reg version "GNU_Production" with
        | some reg2 =>
          ({ outcome := .deployed version, stagingSkipped := skipped }, reg2)
        | none =>
          ({ outcome := .raised "transition failed",
             stagingSkipped := skipped }, reg)
      else ({ outcome := .failed, stagingSkipped := skipped }, reg)

/-- Stable insertion step for the descending sort: place `a` before the
first element whose version id is at most `a`'s. -/
def insertByVersionDesc (a : ModelVersion) :
    List ModelVersion → List ModelVersion
  | [] => [a]
  | x :: xs =>
    if x.version ≤ a.version then a :: x :: xs
    else x :: insertByVersionDesc a xs

/-- Descending stable sort by version id
(`prod_versions.sort(key=lambda x: int(x.version), reverse=True)`,
deploy_model.py 608; Python's sort is stable, as is this insertion sort). -/
def sortByVersionDesc : List ModelVersion → List ModelVersion
  | [] => []
  | x :: xs => insertByVersionDesc x (sortByVersionDesc xs)

/-- Embedding of `ModelDeployment.rollback_production` (deploy_model.py 547-620).  With a
target version: transition it to `"GNU_Production"` directly.  Without:
list all versions of the model, keep only those whose *current* stage is
`"Production"`, require at least two, sort descending by id and promote the
second.  All exceptions are caught and reported as `False`. -/
def rollback_production (reg : Registry) (target : Option Nat) :
    Bool × Registry :=
  match target with
  | some v =>
    match transition_model_stage reg v "GNU_Production" with
    | some reg2 => (true, reg2)
    | none => (false, reg)
  | none =>
    let prod := reg.filter (fun mv => mv.current_stage = "Production")
    if prod.length < 2 then (false, reg)
    else
      match (sortByVersionDesc prod).get? 1 with
      | some mv =>
        match transition_model_stage reg mv.version "GNU_Production" with
        | some reg2 => (true, reg2)
        | none => (false, reg)
      | none => (false, reg)

/-- Number of versions currently in a given stage
(`len(list_versions(stage))`). -/
def stageCount (reg : Registry) (stage : String) : Nat :=
  reg.countP (fun mv => mv.current_stage = stage)

/-! ## Embedding of `src/retrain_model.py` (`AutomaticRetrainer`) -/

/-- Retraining configuration read in `AutomaticRetrainer.__init__`
(retrain_model.py 108-113). -/
structure RetrainConfig where
  interval_days : Int
  auto_deploy : Bool
  min_improvement : ℚ

/-- Embedding of `AutomaticRetrainer.get_last_training_date` (retrain_model.py
120-156): the start time of the run backing the highest-numbered version
(`max(model_versions, key=lambda v: int(v.version))`, which is `latestOf`);
`none` when no versions exist or the backend raises (the exception is caught
and `None` returned). -/
def get_last_training_date (b : Backend) (reg : Registry) : Option Int :=
  match latestOf reg with
  | none => none
  | some mv =>
    match b.runOf mv.run_id with
    | some run => some run.start_time
    | none => none

/-- Elapsed whole days, `(datetime.now() - last_training).days`: Python's
`timedelta.days` floors toward negative infinity over 86400-second days,
exactly `Int.fdiv`. -/
def daysSince (now t : Int) : Int := Int.fdiv (now - t) 86400

/-- Embedding of `AutomaticRetrainer.should_retrain` (retrain_model.py
158-191): retrain when no prior training exists or the elapsed days reach
the interval. -/
def should_retrain (b : Backend) (reg : Registry) (now : Int)
    (interval_days : Int) : Bool :=
  match get_last_training_date b reg with
  | none => true
  | some t => if daysSince now t ≥ interval_days then true else false

/-- Embedding of `AutomaticRetrainer.get_production_metrics` (retrain_model.py
193-227).  NOTE: the source queries `get_latest_versions(stages=
["GNU_Production"])` — the display label, not the MLflow stage name
`"Production"` that `transition_model_stage` actually stores; the raised
MlflowException is caught and `None` returned. -/
def get_production_metrics (b : Backend) (reg : Registry) : Option Metrics :=
  match get_latest_versions reg "GNU_Production" with
  | some (mv :: _) =>
    match b.runOf mv.run_id with
    | some run => some run.metrics
    | none => none
  | _ => none

/-- Embedding of `AutomaticRetrainer.compare_models` (retrain_model.py
229-272): with no production metrics the new model wins with improvement 0;
otherwise the new model wins iff the accuracy improvement (missing keys
defaulting to 0.0) reaches `min_improvement`. -/
def compare_models (min_improvement : ℚ) (new_metrics : Metrics)
    (production_metrics : Option Metrics) : Bool × ℚ :=
  match production_metrics with
  | none => (true, 0)
  | some pm =>
    let improvement :=
      metricsGet new_metrics "accuracy" 0 - metricsGet pm "accuracy" 0
    if improvement ≥ min_improvement then (true, improvement)
    else (false, improvement)

/-- Next version id handed out by the registry: version ids are monotonic,
one past the largest id seen so far. -/
def nextVersion (reg : Registry) : Nat :=
  reg.foldl (fun m mv => max m mv.version) 0 + 1

/-- Registration of a freshly trained model by the registry
(`register_version(run_id)`, performed inside
`MLModelTrainer.run_training_pipeline` via `registered_model_name`): a new
version in the initial stage `"None"`. -/
def register_version (reg : Registry) (run_id : String) : Registry :=
  ⟨nextVersion reg, run_id, "None"⟩ :: reg

/-- Outcome of `MLModelTrainer.run_training_pipeline` as consumed by the
retrainer: the run id and the new model's metric map. -/
structure TrainOutcome where
  run_id : String
  metrics : Metrics
deriving Repr, DecidableEq

/-- The `deployment_info` dict assembled in step 5 of `retrain_and_deploy`. -/
structure DeploymentInfo where
  deployed : Bool
  reason : Option String
  staging_version : Option Nat
  production_version : Option Nat
  deployment_error : Option String
deriving Repr, DecidableEq

/-- Result of `retrain_and_deploy`: the skip dict
(`{'status': 'skipped', 'reason': ...}`) or the completed dict with the
comparison verdict, the improvement, and the deployment info. -/
inductive RetrainResult where
  | skipped (reason : String)
  | completed (is_better : Bool) (improvement : ℚ)
      (deployment : DeploymentInfo)
deriving Repr, DecidableEq

/-- Step 5 of `retrain_and_deploy` (retrain_model.py 389-435): deploy to
Staging then Production when `auto_deploy` and the new model is better;
deployment exceptions are caught and recorded; otherwise record why no
deployment happened (`'auto_deploy disabled'` before
`'new model not better'`, mirroring the elif chain). -/
def deployStep (b : Backend) (auto_deploy : Bool) (is_better : Bool)
    (reg : Registry) : DeploymentInfo × Registry :=
  if auto_deploy && is_better then
    match deploy_to_staging b reg with
    | (DeployOutcome.deployed sv, reg1) =>
      match deploy_to_production b reg1 none with
      | (⟨DeployOutcome.deployed pv, _⟩, reg2) =>
        ({ deployed := true, reason := none, staging_version := some sv,
           production_version := some pv, deployment_error := none }, reg2)
      | (⟨DeployOutcome.failed, _⟩, reg2) =>
        ({ deployed := false, reason := none, staging_version := some sv,
           production_version := none, deployment_error := none }, reg2)
      | (⟨DeployOutcome.raised msg, _⟩, reg2) =>
        ({ deployed := false, reason := none, staging_version := some sv,
           production_version := none, deployment_error := some msg }, reg2)
    | (DeployOutcome.failed, reg1) =>
      ({ deployed := false, reason := none, staging_version := none,
         production_version := none, deployment_error := none }, reg1)
    | (DeployOutcome.raised msg, reg1) =>
      ({ deployed := false, reason := none, staging_version := none,
         production_version := none, deployment_error := some msg }, reg1)
  else if !auto_deploy then
    ({ deployed := false, reason := some "auto_deploy disabled",
       staging_version := none, production_version := none,
       deployment_error := none }, reg)
  else
    ({ deployed := false, reason := some "new model not better",
       staging_version := none, production_version := none,
       deployment_error := none }, reg)

/-- Embedding of `AutomaticRetrainer.retrain_and_deploy` (retrain_model.py
321-499).  `training` supplies the external training collaborator's
outcome; `none` models a raised training exception, which the method
re-raises (after a best-effort failure notification, a side channel not
part of registry state), embedded as `Except.error`.  On the skip path
nothing happens at all; otherwise the current production metrics are
captured first, training registers a fresh `"None"`-stage version, and
step 5 conditionally deploys. -/
def retrain_and_deploy (b : Backend) (cfg : RetrainConfig)
    (training : Option TrainOutcome) (reg : Registry) (now : Int)
    (force : Bool) : Except String (RetrainResult × Registry) :=
  if !force && !should_retrain b reg now cfg.interval_days then
    Except.ok (RetrainResult.skipped "Not yet time for retraining", reg)
  else
    let production_metrics := get_production_metrics b reg
    match training with
    | none => Except.error "Training failed"
    | some t =>
      let reg1 := register_version reg t.run_id
      let cmp :=
        compare_models cfg.min_improvement t.metrics production_metrics
      let step := deployStep b cfg.auto_deploy cmp.1 reg1
      Except.ok (RetrainResult.completed cmp.1 cmp.2 step.1, step.2)

/-! ## Reachable registry states and concrete scenario states -/

/-- Registry states reachable using only this system's own operations:
fresh registrations (always into stage `"None"`) and successful
`transition_model_stage` calls into the two stages the deployment and
rollback code passes (`"Staging"`, `"GNU_Production"`). -/
inductive Reachable : Registry → Prop where
  | nil : Reachable []
  | register (reg : Registry) (rid : String) (h : Reachable reg) :
      Reachable (register_version reg rid)
  | transition (reg reg2 : Registry) (v : Nat) (st : String)
      (h : Reachable reg) (hst : st = "Staging" ∨ st = "GNU_Production")
      (ht : transition_model_stage reg v st = some reg2) : Reachable reg2

/-- Successive successful `transition_model_stage` calls, failing as soon as
one raises. -/
def runTransitions : Registry → List (Nat × String) → Option Registry
  | reg, [] => some reg
  | reg, (v, st) :: rest =>
    match transition_model_stage reg v st with
    | some reg2 => runTransitions reg2 rest
    | none => none

/-- Scenario state of the spec's rollback property: versions 1 and 2 were in
Production and are now archived; version 3 is the current Production
occupant. -/
def rollbackScenario : Registry :=
  [⟨1, "r1", "Archived"⟩, ⟨2, "r2", "Archived"⟩, ⟨3, "r3", "Production"⟩]

/-- Scenario state of the production fallback: nothing in Staging, a single
version 7 in the initial stage. -/
def reg7 : Registry := [⟨7, "run7", "None"⟩]

/-- Backend for the fallback scenario: version 7's run scored accuracy
0.42. -/
def backend7 : Backend :=
  ⟨fun rid => if rid = "run7" then some ⟨[("accuracy", 42/100)], 0⟩ else none⟩

/-- Failing state for the production-metrics query: one version in the
MLflow stage `"Production"` whose run scored accuracy 0.9. -/
def prodState : Registry := [⟨1, "r1", "Production"⟩]

/-- Backend for `prodState`. -/
def prodBackend : Backend :=
  ⟨fun rid => if rid = "r1" then some ⟨[("accuracy", 9/10)], 0⟩ else none⟩

/-- Backend every call to which fails. -/
def failBackend : Backend := ⟨fun _ => none⟩

/-- Registry with a single freshly registered version, used to exercise a
promotion against a failing backend. -/
def regOneNew : Registry := [⟨1, "r1", "None"⟩]

/-- Backend in which version 1's run scored accuracy 0.1, below both
gates. -/
def lowBackend : Backend :=
  ⟨fun rid => if rid = "r1" then some ⟨[("accuracy", 1/10)], 0⟩ else none⟩

/-- Registry with a single Staging occupant, version 2. -/
def regS : Registry := [⟨2, "r2", "Staging"⟩]

/-- Backend in which version 2's run scored accuracy 0.37: above the
staging gate (0.35) but below the production gate (0.4). -/
def midBackend : Backend :=
  ⟨fun rid => if rid = "r2" then some ⟨[("accuracy", 37/100)], 0⟩ else none⟩

/-! ## Helper lemmas -/

/-- Validation fails strictly below the threshold. -/
lemma validate_false_of_lt {m : Metrics} {t : ℚ}
    (h : metricsGet m "accuracy" 0 < t) :
    validate_model_performance m t = false := by
  unfold validate_model_performance
  rw [if_neg (not_le.mpr h)]

/-- Validation passes at or above the threshold. -/
lemma validate_true_of_le {m : Metrics} {t : ℚ}
    (h : t ≤ metricsGet m "accuracy" 0) :
    validate_model_performance m t = true := by
  unfold validate_model_performance
  rw [if_pos h]

/-- Elapsed-days bound: strictly less than `I` whole days have passed when
the elapsed seconds are below `I * 86400`. -/
lemma daysSince_lt {now t I : Int} (h : now - t < I * 86400) :
    daysSince now t < I := by
  unfold daysSince
  rw [Int.fdiv_eq_ediv _ (by norm_num)]
  exact Int.ediv_lt_of_lt_mul (by norm_num) h

end GnuMlops

/-- C4 — `validate_model_performance(m, t)` is a pure predicate on its
arguments (it takes no registry state and returns only a `Bool`): it passes
iff `m.get("accuracy", 0) ≥ t`, never errs on a missing `"accuracy"` key
(the value defaults to 0), and the boundary is inclusive: accuracy exactly
equal to the threshold passes, as the 0.35-threshold boundary instances
show. -/
theorem GnuMlops.C4_validation_gate (m : GnuMlops.Metrics) (t : ℚ) :
    (GnuMlops.validate_model_performance m t = true ↔
      GnuMlops.metricsGet m "accuracy" 0 ≥ t) ∧
    (∀ t' : ℚ, GnuMlops.validate_model_performance [] t' =
      decide ((0 : ℚ) ≥ t')) ∧
    GnuMlops.validate_model_performance [("accuracy", 35/100)] (35/100) = true ∧
    GnuMlops.validate_model_performance [("accuracy", 349999/1000000)]
      (35/100) = false := by
  refine ⟨?_, ?_, ?_, ?_⟩
  · unfold GnuMlops.validate_model_performance
    split <;> simp_all
  · intro t'
    by_cases h : (0 : ℚ) ≥ t' <;>
      simp [GnuMlops.validate_model_performance, GnuMlops.metricsGet,
        List.lookup, h]
  · norm_num [GnuMlops.validate_model_performance, GnuMlops.metricsGet,
      List.lookup]
  · norm_num [GnuMlops.validate_model_performance, GnuMlops.metricsGet,
      List.lookup]

/-- C5 — two independent frame properties.  Staging: if the latest
initial-stage candidate's accuracy is below the staging threshold (0.35),
`deploy_to_staging` returns a failure without performing any stage
transition: the registry is returned entirely unchanged.  Production: for
any candidate (explicit, resolved from Staging, or resolved from the
initial stage) whose accuracy is below the production threshold (0.4),
`deploy_to_production` likewise returns a failure with the registry
entirely unchanged. -/
theorem GnuMlops.C5_validation_failure_frame :
    (∀ (b : GnuMlops.Backend) (reg : GnuMlops.Registry) (v : Nat)
      (mv : GnuMlops.ModelVersion),
      GnuMlops.get_latest_model_version reg = some v →
      reg.find? (fun x => x.version = v) = some mv →
      GnuMlops.metricsGet (GnuMlops.get_model_metrics b mv.run_id)
        "accuracy" 0 < 35 / 100 →
      GnuMlops.deploy_to_staging b reg =
        (GnuMlops.DeployOutcome.failed, reg)) ∧
    (∀ (b : GnuMlops.Backend) (reg : GnuMlops.Registry) (vers : Option Nat)
      (w : Nat) (sk : Bool) (mw : GnuMlops.ModelVersion),
      GnuMlops.resolveProdCandidate reg vers = some (w, sk) →
      reg.find? (fun x => x.version = w) = some mw →
      GnuMlops.metricsGet (GnuMlops.get_model_metrics b mw.run_id)
        "accuracy" 0 < 40 / 100 →
      GnuMlops.deploy_to_production b reg vers =
        (⟨GnuMlops.DeployOutcome.failed, sk⟩, reg)) := by
  constructor
  · intro b reg v mv hs1 hs2 hs3
    unfold GnuMlops.deploy_to_staging
    simp only [hs1, hs2, GnuMlops.validate_false_of_lt hs3]
    simp
  · intro b reg vers w sk mw hp1 hp2 hp3
    unfold GnuMlops.deploy_to_production
    simp only [hp1, hp2, GnuMlops.validate_false_of_lt hp3]
    simp

/-- Witness for C5.  Staging half: version 1 of `regOneNew` scored 0.1.
Production half at a claim-central state: `regS` has only a Staging
occupant (nothing in the initial stage) whose accuracy 0.37 sits in the
[0.35, 0.40) band, so only the production gate fails. -/
theorem GnuMlops.C5_validation_failure_frame_witness :
    GnuMlops.get_latest_model_version GnuMlops.regOneNew = some 1 ∧
    GnuMlops.metricsGet
      (GnuMlops.get_model_metrics GnuMlops.lowBackend "r1") "accuracy" 0 <
      35 / 100 ∧
    GnuMlops.deploy_to_staging GnuMlops.lowBackend GnuMlops.regOneNew =
      (GnuMlops.DeployOutcome.failed, GnuMlops.regOneNew) ∧
    GnuMlops.resolveProdCandidate GnuMlops.regS none = some (2, false) ∧
    GnuMlops.get_latest_versions GnuMlops.regS "None" = some [] ∧
    GnuMlops.metricsGet
      (GnuMlops.get_model_metrics GnuMlops.midBackend "r2") "accuracy" 0 <
      40 / 100 ∧
    GnuMlops.deploy_to_production GnuMlops.midBackend GnuMlops.regS none =
      (⟨GnuMlops.DeployOutcome.failed, false⟩, GnuMlops.regS) := by
  have h3 : GnuMlops.metricsGet
      (GnuMlops.get_model_metrics GnuMlops.lowBackend "r1") "accuracy" 0 <
      35 / 100 := by
    norm_num [GnuMlops.metricsGet, GnuMlops.get_model_metrics,
      GnuMlops.lowBackend, List.lookup]
  have h3' : GnuMlops.metricsGet
      (GnuMlops.get_model_metrics GnuMlops.midBackend "r2") "accuracy" 0 <
      40 / 100 := by
    norm_num [GnuMlops.metricsGet, GnuMlops.get_model_metrics,
      GnuMlops.midBackend, List.lookup]
  have hmain := GnuMlops.C5_validation_failure_frame
  exact ⟨by decide, h3,
    hmain.1 GnuMlops.lowBackend GnuMlops.regOneNew 1 ⟨1, "r1", "None"⟩
      (by decide) (by decide) h3,
    by decide, by decide, h3',
    hmain.2 GnuMlops.midBackend GnuMlops.regS none 2 false
      ⟨2, "r2", "Staging"⟩ (by decide) (by decide) h3'⟩

/-- C6 — parameterless `deploy_to_production` resolves its candidate in
order: the current Staging occupant; else the latest initial-stage
(`"None"`) version, flagged as having skipped Staging; else the call fails
with no candidate and no registry change.  In the fallback scenario (no
Staging model, version 7 in the initial stage with accuracy 0.42 against
the 0.4 production threshold) it succeeds, promotes version 7 directly,
and the result indicates Staging was skipped. -/
theorem GnuMlops.C6_production_candidate_resolution :
    (∀ (reg : GnuMlops.Registry) (mv : GnuMlops.ModelVersion)
      (rest : List GnuMlops.ModelVersion),
      GnuMlops.get_latest_versions reg "Staging" = some (mv :: rest) →
      GnuMlops.resolveProdCandidate reg none = some (mv.version, false)) ∧
    (∀ (reg : GnuMlops.Registry) (mv : GnuMlops.ModelVersion)
      (rest : List GnuMlops.ModelVersion),
      GnuMlops.get_latest_versions reg "Staging" = some [] →
      GnuMlops.get_latest_versions reg "None" = some (mv :: rest) →
      GnuMlops.resolveProdCandidate reg none = some (mv.version, true)) ∧
    (∀ (reg : GnuMlops.Registry) (b : GnuMlops.Backend),
      GnuMlops.get_latest_versions reg "Staging" = some [] →
      GnuMlops.get_latest_versions reg "None" = some [] →
      GnuMlops.deploy_to_production b reg none =
        (⟨GnuMlops.DeployOutcome.failed, false⟩, reg)) ∧
    GnuMlops.deploy_to_production GnuMlops.backend7 GnuMlops.reg7 none =
      (⟨GnuMlops.DeployOutcome.deployed 7, true⟩,
        [⟨7, "run7", "Production"⟩]) := by
  refine ⟨?_, ?_, ?_, ?_⟩
  · intro reg mv rest h
    unfold GnuMlops.resolveProdCandidate
    simp only [h]
  · intro reg mv rest h1 h2
    unfold GnuMlops.resolveProdCandidate
    simp only [h1, h2]
  · intro reg b h1 h2
    unfold GnuMlops.deploy_to_production GnuMlops.resolveProdCandidate
    simp only [h1, h2]
  · have hv : GnuMlops.validate_model_performance [("accuracy", 42/100)]
        (40/100) = true :=
      GnuMlops.validate_true_of_le
        (by norm_num [GnuMlops.metricsGet, List.lookup])
    simp [GnuMlops.deploy_to_production, GnuMlops.resolveProdCandidate,
      GnuMlops.get_latest_versions, GnuMlops.canonicalStage,
      GnuMlops.latestOf, GnuMlops.reg7, GnuMlops.backend7,
      GnuMlops.get_model_metrics, hv, GnuMlops.transition_model_stage,
      GnuMlops.transitionVersionStage, GnuMlops.mlflowStage,
      GnuMlops.singletonStage, List.filter, List.find?]

/-- Witness for C6: each resolution branch exercised on a concrete state. -/
theorem GnuMlops.C6_production_candidate_resolution_witness :
    GnuMlops.get_latest_versions GnuMlops.regS "Staging" =
      some [⟨2, "r2", "Staging"⟩] ∧
    GnuMlops.resolveProdCandidate GnuMlops.regS none = some (2, false) ∧
    GnuMlops.get_latest_versions GnuMlops.reg7 "Staging" = some [] ∧
    GnuMlops.get_latest_versions GnuMlops.reg7 "None" =
      some [⟨7, "run7", "None"⟩] ∧
    GnuMlops.resolveProdCandidate GnuMlops.reg7 none = some (7, true) ∧
    GnuMlops.deploy_to_production GnuMlops.failBackend [] none =
      (⟨GnuMlops.DeployOutcome.failed, false⟩, []) := by
  have h := GnuMlops.C6_production_candidate_resolution
  exact ⟨by decide,
    h.1 GnuMlops.regS ⟨2, "r2", "Staging"⟩ [] (by decide),
    by decide, by decide,
    h.2.1 GnuMlops.reg7 ⟨7, "run7", "None"⟩ [] (by decide) (by decide),
    h.2.2.1 [] GnuMlops.failBackend (by decide) (by decide)⟩

/-- C2 — evaluation of the rollback code at the spec's scenario: versions 1
and 2 previously in Production (now Archived), version 3 the current
Production occupant.  The parameterless rollback filters on current stage
`"Production"` only, so it sees a single candidate, reports that no
previous version is available and changes nothing — version 2 is not
promoted. -/
theorem GnuMlops.C2_rollback_scenario_eval :
    GnuMlops.rollback_production GnuMlops.rollbackScenario none =
      (false, GnuMlops.rollbackScenario) ∧
    (GnuMlops.rollbackScenario.filter
      (fun mv => mv.current_stage = "Production")).length = 1 := by
  decide

namespace GnuMlops

/-- Transitions never change the version-id column of the registry. -/
lemma versions_transitionVersionStage (reg : Registry) (v : Nat)
    (m : String) :
    (transitionVersionStage reg v m).map (fun mv => mv.version) =
      reg.map (fun mv => mv.version) := by
  unfold transitionVersionStage
  rw [List.map_map]
  apply List.map_congr_left
  intro mv _
  by_cases h1 : mv.version = v
  · simp [h1]
  · by_cases h2 : singletonStage m ∧ mv.current_stage = m <;>
      simp [h1, h2]

/-- A version id occurs at most once in a registry with pairwise distinct
ids. -/
lemma countP_version_le_one (reg : Registry) (v : Nat)
    (h : (reg.map (fun mv => mv.version)).Nodup) :
    reg.countP (fun mv => mv.version = v) ≤ 1 := by
  induction reg with
  | nil => simp
  | cons mv rest ih =>
    simp only [List.map_cons, List.nodup_cons] at h
    rw [List.countP_cons]
    by_cases h1 : mv.version = v
    · have hz : rest.countP (fun x => x.version = v) = 0 := by
        rw [List.countP_eq_zero]
        intro x hx
        simp only [decide_eq_true_eq]
        intro hxv
        exact h.1 (by
          rw [h1, ← hxv]
          exact List.mem_map_of_mem _ hx)
      simp [h1, hz]
    · simpa [h1] using ih h.2

/-- After a transition of version `v` into a singleton stage `m`, the
occupants of `m` are exactly the registry entries with id `v`. -/
lemma stageCount_transition_self (reg : Registry) (v : Nat) (m : String)
    (hm : singletonStage m = true) :
    stageCount (transitionVersionStage reg v m) m =
      reg.countP (fun mv => mv.version = v) := by
  have hmA : m ≠ "Archived" := by
    rcases (by simpa [singletonStage] using hm : m = "Staging" ∨
      m = "Production") with h | h <;> simp [h]
  unfold stageCount transitionVersionStage
  rw [List.countP_map]
  apply List.countP_congr
  intro mv _
  by_cases h1 : mv.version = v
  · simp [Function.comp, h1]
  · by_cases h2 : mv.current_stage = m
    · simp [Function.comp, h1, h2, hm, hmA, Ne.symm hmA]
    · simp [Function.comp, h1, h2]

/-- A transition of version `v` into stage `m` never adds occupants to a
different non-`Archived` stage `s`. -/
lemma stageCount_transition_le (reg : Registry) (v : Nat) (m s : String)
    (hms : m ≠ s) (hsA : s ≠ "Archived") :
    stageCount (transitionVersionStage reg v m) s ≤ stageCount reg s := by
  unfold stageCount transitionVersionStage
  rw [List.countP_map]
  apply List.countP_mono_left
  intro mv _ h
  simp only [Function.comp, decide_eq_true_eq] at h ⊢
  by_cases h1 : mv.version = v
  · simp [h1] at h
    exact absurd h hms
  · by_cases h2 : singletonStage m ∧ mv.current_stage = m
    · simp [h1, h2] at h
      exact absurd h.symm hsA
    · simpa [h1, h2] using h

/-- Shape of a successful `transition_model_stage` call. -/
lemma transition_model_stage_eq {reg reg2 : Registry} {v : Nat}
    {st : String} (h : transition_model_stage reg v st = some reg2) :
    reg2 = transitionVersionStage reg v (mlflowStage st) := by
  unfold transition_model_stage at h
  split at h
  · exact (Option.some_inj.mp h).symm
  · exact absurd h (by simp)

/-- The two stages the deployment code transitions into map to singleton
MLflow stages. -/
lemma mlflowStage_singleton {st : String}
    (h : st = "Staging" ∨ st = "GNU_Production") :
    singletonStage (mlflowStage st) = true := by
  rcases h with h | h <;> simp [h, mlflowStage, singletonStage]

end GnuMlops

namespace GnuMlops

/-- Initial value is below the running maximum of the version fold. -/
lemma init_le_foldl_max (reg : Registry) (a : Nat) :
    a ≤ reg.foldl (fun m mv => max m mv.version) a := by
  induction reg generalizing a with
  | nil => exact Nat.le_refl a
  | cons mv rest ih =>
    exact Nat.le_trans (Nat.le_max_left a mv.version) (ih (max a mv.version))

/-- Every member's version id is below the running maximum of the fold. -/
lemma mem_le_foldl_max (reg : Registry) :
    ∀ (a : Nat) (mv : ModelVersion), mv ∈ reg →
      mv.version ≤ reg.foldl (fun m x => max m x.version) a := by
  induction reg with
  | nil => intro a mv h; cases h
  | cons x rest ih =>
    intro a mv h
    rcases List.mem_cons.mp h with h | h
    · subst h
      exact Nat.le_trans (Nat.le_max_right a mv.version)
        (init_le_foldl_max rest (max a mv.version))
    · exact ih (max a x.version) mv h

/-- Freshly registered versions receive an id strictly above all existing
ids. -/
lemma version_lt_nextVersion (reg : Registry) (mv : ModelVersion)
    (h : mv ∈ reg) : mv.version < nextVersion reg :=
  Nat.lt_succ_of_le (mem_le_foldl_max reg 0 mv h)

/-- Invariant of all reachable registry states: version ids are pairwise
distinct, and each singleton stage has at most one occupant. -/
lemma reachable_invariant {reg : Registry} (h : Reachable reg) :
    (reg.map (fun mv => mv.version)).Nodup ∧
      stageCount reg "Staging" ≤ 1 ∧ stageCount reg "Production" ≤ 1 := by
  induction h with
  | nil => simp [stageCount]
  | register reg rid hr ih =>
    refine ⟨?_, ?_, ?_⟩
    · unfold register_version
      rw [List.map_cons, List.nodup_cons]
      refine ⟨?_, ih.1⟩
      intro hmem
      rcases List.mem_map.mp hmem with ⟨mv, hmv, hv⟩
      exact absurd hv (Nat.ne_of_lt (version_lt_nextVersion reg mv hmv))
    · unfold register_version stageCount
      rw [List.countP_cons]
      simpa using ih.2.1
    · unfold register_version stageCount
      rw [List.countP_cons]
      simpa using ih.2.2
  | transition reg reg2 v st hr hst ht ih =>
    have heq := transition_model_stage_eq ht
    have hsing := mlflowStage_singleton hst
    subst heq
    refine ⟨?_, ?_, ?_⟩
    · rw [versions_transitionVersionStage]
      exact ih.1
    · by_cases hm : mlflowStage st = "Staging"
      · rw [hm, stageCount_transition_self reg v "Staging" (by decide)]
        exact countP_version_le_one reg v ih.1
      · exact Nat.le_trans
          (stageCount_transition_le reg v _ "Staging" hm (by decide))
          ih.2.1
    · by_cases hm : mlflowStage st = "Production"
      · rw [hm, stageCount_transition_self reg v "Production" (by decide)]
        exact countP_version_le_one reg v ih.1
      · exact Nat.le_trans
          (stageCount_transition_le reg v _ "Production" hm (by decide))
          ih.2.2

end GnuMlops

/-- C10 — in every registry state reachable using only this system's own
operations (registrations and archiving stage transitions), at most one
version is currently in the MLflow stage `"Production"`; the parameterless
`rollback_production`, which filters on that current stage alone, therefore
always sees fewer than two candidates and returns `False` without touching
the registry. -/
theorem GnuMlops.C10_auto_rollback_always_fails (reg : GnuMlops.Registry)
    (h : GnuMlops.Reachable reg) :
    GnuMlops.stageCount reg "Production" ≤ 1 ∧
    GnuMlops.rollback_production reg none = (false, reg) := by
  obtain ⟨-, -, hp⟩ := GnuMlops.reachable_invariant h
  refine ⟨hp, ?_⟩
  have hlen :
      (reg.filter (fun mv => mv.current_stage = "Production")).length < 2 := by
    unfold GnuMlops.stageCount at hp
    rw [List.countP_eq_length_filter] at hp
    omega
  unfold GnuMlops.rollback_production
  simp only [hlen, if_pos]

/-- Witness for C10: a state built by two registrations and one production
deployment. -/
theorem GnuMlops.C10_auto_rollback_always_fails_witness :
    GnuMlops.rollback_production
      [⟨2, "r2", "Production"⟩, ⟨1, "r1", "None"⟩] none =
      (false, [⟨2, "r2", "Production"⟩, ⟨1, "r1", "None"⟩]) :=
  (GnuMlops.C10_auto_rollback_always_fails _
    (GnuMlops.Reachable.transition _ _ 2 "GNU_Production"
      (GnuMlops.Reachable.register _ "r2"
        (GnuMlops.Reachable.register _ "r1" GnuMlops.Reachable.nil))
      (Or.inr rfl) (by decide))).2

namespace GnuMlops

/-- Any sequence of transitions into the archiving stages keeps a singleton
stage's occupancy at most one. -/
lemma runTransitions_stage_le_one :
    ∀ (ts : List (Nat × String)) (reg reg2 : Registry) (s : String),
      (∀ p ∈ ts, p.2 = "Staging" ∨ p.2 = "GNU_Production") →
      runTransitions reg ts = some reg2 →
      (reg.map (fun mv => mv.version)).Nodup →
      singletonStage s = true →
      stageCount reg s ≤ 1 → stageCount reg2 s ≤ 1 := by
  intro ts
  induction ts with
  | nil =>
    intro reg reg2 s _ h _ _ hle
    simp only [runTransitions, Option.some_inj] at h
    subst h
    exact hle
  | cons q rest ih =>
    intro reg reg2 s hall h hnd hs hle
    obtain ⟨v, st⟩ := q
    simp only [runTransitions] at h
    cases hq : transition_model_stage reg v st with
    | none => rw [hq] at h; cases h
    | some reg1 =>
      rw [hq] at h
      have hst := hall (v, st) (List.mem_cons_self _ _)
      have heq := transition_model_stage_eq hq
      have hnd1 : (reg1.map (fun mv => mv.version)).Nodup := by
        rw [heq, versions_transitionVersionStage]
        exact hnd
      have hle1 : stageCount reg1 s ≤ 1 := by
        by_cases hm : mlflowStage st = s
        · rw [heq, hm, stageCount_transition_self reg v s hs]
          exact countP_version_le_one reg v hnd
        · have hsA : s ≠ "Archived" := by
            rcases (by simpa [singletonStage] using hs : s = "Staging" ∨
              s = "Production") with h' | h' <;> simp [h']
          rw [heq]
          exact Nat.le_trans (stageCount_transition_le reg v _ s hm hsA) hle
      exact ih reg1 reg2 s
        (fun q hq2 => hall q (List.mem_cons_of_mem _ hq2)) h hnd1 hs hle1

/-- After a successful transition sequence into the archiving stages, every
stage targeted along the way holds at most one version. -/
lemma runTransitions_target_le_one :
    ∀ (ts : List (Nat × String)) (reg reg2 : Registry),
      (reg.map (fun mv => mv.version)).Nodup →
      (∀ p ∈ ts, p.2 = "Staging" ∨ p.2 = "GNU_Production") →
      runTransitions reg ts = some reg2 →
      ∀ p ∈ ts, stageCount reg2 (mlflowStage p.2) ≤ 1 := by
  intro ts
  induction ts with
  | nil => intro reg reg2 _ _ _ p hp; cases hp
  | cons q rest ih =>
    intro reg reg2 hnd hall hrun p hp
    obtain ⟨v, st⟩ := q
    simp only [runTransitions] at hrun
    cases hq : transition_model_stage reg v st with
    | none => rw [hq] at hrun; cases hrun
    | some reg1 =>
      rw [hq] at hrun
      have hst := hall (v, st) (List.mem_cons_self _ _)
      have heq := transition_model_stage_eq hq
      have hnd1 : (reg1.map (fun mv => mv.version)).Nodup := by
        rw [heq, versions_transitionVersionStage]
        exact hnd
      rcases List.mem_cons.mp hp with hp | hp
      · subst hp
        have h1 : stageCount reg1 (mlflowStage st) ≤ 1 := by
          rw [heq,
            stageCount_transition_self reg v _ (mlflowStage_singleton hst)]
          exact countP_version_le_one reg v hnd
        exact runTransitions_stage_le_one rest reg1 reg2 _
          (fun q hq2 => hall q (List.mem_cons_of_mem _ hq2)) hrun hnd1
          (mlflowStage_singleton hst) h1
      · exact ih reg1 reg2 hnd1
          (fun q hq2 => hall q (List.mem_cons_of_mem _ hq2)) hrun p hp

end GnuMlops

/-- C1 — after any sequence of successful `transition_model_stage` calls
into a singleton stage (`"Staging"` or `"GNU_Production"`), each stage
transitioned into holds at most one model version (given pairwise distinct
version ids); moreover each single transition archives, atomically with the
assignment, every prior occupant of the target stage other than the moved
version, and assigns the target stage to the moved version. -/
theorem GnuMlops.C1_singleton_stage_invariant
    (reg reg2 : GnuMlops.Registry) (ts : List (Nat × String))
    (hnd : (reg.map (fun mv => mv.version)).Nodup)
    (hall : ∀ p ∈ ts, p.2 = "Staging" ∨ p.2 = "GNU_Production")
    (hrun : GnuMlops.runTransitions reg ts = some reg2) :
    (∀ p ∈ ts, GnuMlops.stageCount reg2 (GnuMlops.mlflowStage p.2) ≤ 1) ∧
    (∀ (r r2 : GnuMlops.Registry) (v : Nat) (st : String),
      (st = "Staging" ∨ st = "GNU_Production") →
      GnuMlops.transition_model_stage r v st = some r2 →
      (∀ mv ∈ r, mv.current_stage = GnuMlops.mlflowStage st →
        mv.version ≠ v →
        { mv with current_stage := "Archived" } ∈ r2) ∧
      (∀ mv ∈ r, mv.version = v →
        { mv with current_stage := GnuMlops.mlflowStage st } ∈ r2)) := by
  constructor
  · exact GnuMlops.runTransitions_target_le_one ts reg reg2 hnd hall hrun
  · intro r r2 v st hst ht
    have heq := GnuMlops.transition_model_stage_eq ht
    constructor
    · intro mv hmv hstage hne
      rw [heq]
      unfold GnuMlops.transitionVersionStage
      refine List.mem_map.mpr ⟨mv, hmv, ?_⟩
      simp [hne, hstage, GnuMlops.mlflowStage_singleton hst]
    · intro mv hmv hv
      rw [heq]
      unfold GnuMlops.transitionVersionStage
      refine List.mem_map.mpr ⟨mv, hmv, ?_⟩
      simp [hv]

/-- Witness for C1: two fresh versions moved through Staging and then one
into GNU_Production. -/
theorem GnuMlops.C1_singleton_stage_invariant_witness :
    ([⟨1, "a", "None"⟩, ⟨2, "b", "None"⟩].map
      (fun mv : GnuMlops.ModelVersion => mv.version)).Nodup ∧
    GnuMlops.runTransitions [⟨1, "a", "None"⟩, ⟨2, "b", "None"⟩]
      [(1, "Staging"), (2, "Staging"), (2, "GNU_Production")] =
      some [⟨1, "a", "Archived"⟩, ⟨2, "b", "Production"⟩] ∧
    GnuMlops.stageCount [⟨1, "a", "Archived"⟩, ⟨2, "b", "Production"⟩]
      "Production" ≤ 1 := by
  refine ⟨by decide, by decide, ?_⟩
  exact (GnuMlops.C1_singleton_stage_invariant
    [⟨1, "a", "None"⟩, ⟨2, "b", "None"⟩]
    [⟨1, "a", "Archived"⟩, ⟨2, "b", "Production"⟩]
    [(1, "Staging"), (2, "Staging"), (2, "GNU_Production")]
    (by decide) (by decide) (by decide)).1 (2, "GNU_Production") (by decide)

/-- C3 — evaluation of `get_production_metrics` at a state with a model in
Production.  The retrainer queries the display stage string
`"GNU_Production"` while the registry stores the MLflow stage
`"Production"` (the mapping `transition_model_stage` itself applies), so
the query yields nothing and the method returns `None` even though version
1 occupies Production with known metrics — the claim says the occupant's
metric map is returned.  (`compare_models` then indeed treats `None` as
"new model is better", the part of the claim the code does satisfy.) -/
theorem GnuMlops.C3_production_metrics_code_bug :
    GnuMlops.get_production_metrics GnuMlops.prodBackend GnuMlops.prodState =
      none ∧
    GnuMlops.stageCount GnuMlops.prodState "Production" = 1 ∧
    GnuMlops.get_latest_versions GnuMlops.prodState "Production" =
      some [⟨1, "r1", "Production"⟩] ∧
    (GnuMlops.prodBackend.runOf "r1").map (fun run => run.metrics) =
      some [("accuracy", 9/10)] ∧
    (GnuMlops.compare_models 0 [] none).1 = true :=
  ⟨rfl, rfl, rfl, rfl, rfl⟩

/-- C7 — the comparison gate: with no production metrics the new model wins;
with production metrics it wins exactly when the accuracy improvement
(missing keys defaulting to 0) reaches `min_improvement`; at production
accuracy 0.80 versus new accuracy 0.805 with `min_improvement` 0.01 it
loses; and on a losing comparison step 5 of `retrain_and_deploy`
(`deployStep`, with `auto_deploy` enabled) performs no deployment, leaves
the registry untouched and records the reason "new model not better". -/
theorem GnuMlops.C7_improvement_gate (mi : ℚ)
    (nm pm : GnuMlops.Metrics) (b : GnuMlops.Backend)
    (reg : GnuMlops.Registry) :
    ((GnuMlops.compare_models mi nm none).1 = true) ∧
    ((GnuMlops.compare_models mi nm (some pm)).1 = true ↔
      GnuMlops.metricsGet nm "accuracy" 0 -
        GnuMlops.metricsGet pm "accuracy" 0 ≥ mi) ∧
    ((GnuMlops.compare_models (1/100) [("accuracy", 805/1000)]
        (some [("accuracy", 8/10)])).1 = false) ∧
    (GnuMlops.deployStep b true false reg =
      (⟨false, some "new model not better", none, none, none⟩, reg)) := by
  refine ⟨rfl, ?_, ?_, rfl⟩
  · by_cases h : GnuMlops.metricsGet nm "accuracy" 0 -
        GnuMlops.metricsGet pm "accuracy" 0 ≥ mi <;>
      simp [GnuMlops.compare_models, h]
  · simp [GnuMlops.compare_models, GnuMlops.metricsGet, List.lookup]
    rw [if_neg (by norm_num)]

/-- C8 — when the run backing the highest-numbered version started less
than `interval_days` ago, an unforced `retrain_and_deploy` returns the
skip result with the registry untouched, no matter what the training
collaborator would have produced (it is never invoked, `training` is
arbitrary — even a training failure is not observed); a repeated call
within the interval skips identically. -/
theorem GnuMlops.C8_idempotent_skip (b : GnuMlops.Backend)
    (cfg : GnuMlops.RetrainConfig) (training : Option GnuMlops.TrainOutcome)
    (reg : GnuMlops.Registry) (mv : GnuMlops.ModelVersion)
    (run : GnuMlops.RunData) (now now2 : Int)
    (hmax : GnuMlops.latestOf reg = some mv)
    (hrun : b.runOf mv.run_id = some run)
    (_h1 : 0 ≤ now - run.start_time)
    (h2 : now - run.start_time < cfg.interval_days * 86400)
    (_h3 : 0 ≤ now2 - run.start_time)
    (h4 : now2 - run.start_time < cfg.interval_days * 86400) :
    GnuMlops.retrain_and_deploy b cfg training reg now false =
      Except.ok (GnuMlops.RetrainResult.skipped
        "Not yet time for retraining", reg) ∧
    GnuMlops.retrain_and_deploy b cfg training reg now2 false =
      Except.ok (GnuMlops.RetrainResult.skipped
        "Not yet time for retraining", reg) := by
  have hlast : GnuMlops.get_last_training_date b reg =
      some run.start_time := by
    unfold GnuMlops.get_last_training_date
    rw [hmax]
    simp [hrun]
  have hs : GnuMlops.should_retrain b reg now cfg.interval_days = false := by
    unfold GnuMlops.should_retrain
    rw [hlast]
    simp [Int.not_le.mpr (GnuMlops.daysSince_lt h2)]
  have hs2 : GnuMlops.should_retrain b reg now2 cfg.interval_days = false := by
    unfold GnuMlops.should_retrain
    rw [hlast]
    simp [Int.not_le.mpr (GnuMlops.daysSince_lt h4)]
  constructor
  · unfold GnuMlops.retrain_and_deploy
    simp [hs]
  · unfold GnuMlops.retrain_and_deploy
    simp [hs2]

/-- Witness for C8: one version trained at time 0, checked after one and
after two days against a 30-day interval, with a would-be failing trainer
that is never consulted. -/
theorem GnuMlops.C8_idempotent_skip_witness :
    GnuMlops.latestOf GnuMlops.regOneNew = some ⟨1, "r1", "None"⟩ ∧
    GnuMlops.retrain_and_deploy GnuMlops.lowBackend ⟨30, true, 0⟩ none
      GnuMlops.regOneNew 86400 false =
      Except.ok (GnuMlops.RetrainResult.skipped
        "Not yet time for retraining", GnuMlops.regOneNew) ∧
    GnuMlops.retrain_and_deploy GnuMlops.lowBackend ⟨30, true, 0⟩ none
      GnuMlops.regOneNew 172800 false =
      Except.ok (GnuMlops.RetrainResult.skipped
        "Not yet time for retraining", GnuMlops.regOneNew) := by
  have h := GnuMlops.C8_idempotent_skip GnuMlops.lowBackend ⟨30, true, 0⟩
    none GnuMlops.regOneNew ⟨1, "r1", "None"⟩ ⟨[("accuracy", 1/10)], 0⟩
    86400 172800 (by decide) rfl (by decide) (by decide) (by decide)
    (by decide)
  exact ⟨by decide, h.1, h.2⟩

/-- C9 counterexample — a concrete promotion during which every backend
metrics fetch fails: `deploy_to_staging` does not surface any error (the
claim says the failure is propagated as a fatal registry error); it
returns the handled failure value instead. -/
theorem GnuMlops.C9_counterexample_swallowed_backend_failure :
    (GnuMlops.deploy_to_staging GnuMlops.failBackend GnuMlops.regOneNew =
      (GnuMlops.DeployOutcome.failed, GnuMlops.regOneNew)) ∧
    ∀ msg : String,
      (GnuMlops.deploy_to_staging GnuMlops.failBackend
        GnuMlops.regOneNew).1 ≠ GnuMlops.DeployOutcome.raised msg := by
  have hv : GnuMlops.validate_model_performance [] (35/100) = false :=
    GnuMlops.validate_false_of_lt
      (by norm_num [GnuMlops.metricsGet, List.lookup])
  have h : GnuMlops.deploy_to_staging GnuMlops.failBackend
      GnuMlops.regOneNew = (GnuMlops.DeployOutcome.failed,
        GnuMlops.regOneNew) := by
    simp [GnuMlops.deploy_to_staging, GnuMlops.get_latest_model_version,
      GnuMlops.get_latest_versions, GnuMlops.canonicalStage,
      GnuMlops.latestOf, GnuMlops.regOneNew, GnuMlops.failBackend,
      GnuMlops.get_model_metrics, hv, List.filter, List.find?]
  refine ⟨h, ?_⟩
  intro msg
  rw [h]
  simp

/-- C9 amended — when the backend call fetching the candidate's run metrics
fails during a staging promotion, `get_model_metrics` swallows the failure
into an empty metric map; the promotion then fails the validation gate
(accuracy defaults to 0, below the 0.35 threshold) and returns the handled
failure value with the registry unchanged — the caller sees no registry
mutation, but no `RegistryUnavailable`-style error is propagated. -/
theorem GnuMlops.C9_amended_metrics_failure_swallowed
    (b : GnuMlops.Backend) (reg : GnuMlops.Registry) (v : Nat)
    (mv : GnuMlops.ModelVersion)
    (h1 : GnuMlops.get_latest_model_version reg = some v)
    (h2 : reg.find? (fun x => x.version = v) = some mv)
    (h3 : b.runOf mv.run_id = none) :
    GnuMlops.get_model_metrics b mv.run_id = [] ∧
    GnuMlops.deploy_to_staging b reg =
      (GnuMlops.DeployOutcome.failed, reg) := by
  have hm : GnuMlops.get_model_metrics b mv.run_id = [] := by
    unfold GnuMlops.get_model_metrics
    rw [h3]
  refine ⟨hm, ?_⟩
  have hv : GnuMlops.validate_model_performance
      (GnuMlops.get_model_metrics b mv.run_id) (35/100) = false := by
    rw [hm]
    exact GnuMlops.validate_false_of_lt
      (by norm_num [GnuMlops.metricsGet, List.lookup])
  unfold GnuMlops.deploy_to_staging
  simp only [h1, h2, hv]
  simp

/-- Witness for the amended C9: the failing backend against the
single-version registry. -/
theorem GnuMlops.C9_amended_metrics_failure_swallowed_witness :
    GnuMlops.get_latest_model_version GnuMlops.regOneNew = some 1 ∧
    GnuMlops.failBackend.runOf "r1" = none ∧
    GnuMlops.deploy_to_staging GnuMlops.failBackend GnuMlops.regOneNew =
      (GnuMlops.DeployOutcome.failed, GnuMlops.regOneNew) := by
  have h := GnuMlops.C9_amended_metrics_failure_swallowed
    GnuMlops.failBackend GnuMlops.regOneNew 1 ⟨1, "r1", "None"⟩
    (by decide) (by decide) rfl
  exact ⟨by decide, rfl, h.2⟩
